import Mathlib

/-!
Shallow embedding of the MedGemma inference service façade
(`src/api/medgemma-local.py`): the prompt-construction function, the
adapter's `generate_response` method, and the Flask routes `/analyze`
and `/models`.

Python exceptions are modelled with `Except`: a function that may raise
returns `Except String α`, where `Except.error msg` is a raised exception
carrying message `msg`.  The external ML library's tokenize/generate/decode
calls are an opaque oracle parameter (`GenOracle`), and wall-clock time is
an explicit `elapsed` parameter, since neither is owned by this repository.
The route embeddings additionally record, as ghost fields, how many times
the adapter operations were invoked and which body text / prompt was built,
so that "zero adapter invocations" claims are statable.
-/

namespace MedGemmaLocal

/-- Configuration for MedGemma models (`MedGemmaConfig` dataclass). Fields
not consulted by the embedded routes (device map, dtype, memory hints) are
omitted. -/
structure MedGemmaConfig where
  model_id : String
  use_quantization : Bool
deriving Repr, DecidableEq

/-- The keyword arguments of `generate_response` / `model.generate`. -/
structure SamplingOptions where
  max_new_tokens : Nat
  temperature : Rat
  top_k : Nat
  top_p : Rat
  do_sample : Bool
deriving Repr, DecidableEq

/-- What the external library produces on a successful generate call:
the input token ids, the output token ids, and the two decoded strings
used by `generate_response` (decode of `outputs[0]` and of
`inputs['input_ids'][0]`). -/
structure GenOutput where
  inputIds : List Nat
  outputIds : List Nat
  fullDecoded : String
  inputDecoded : String
deriving Repr, DecidableEq

/-- The opaque tokenize-generate-decode capability: given the prompt and
sampling options it either raises (`Except.error` with the exception's
message) or yields a `GenOutput`. -/
def GenOracle : Type := String → SamplingOptions → Except String GenOutput

/-- The adapter's readiness state: `self.model` / `self.tokenizer` are
`None` until `_load_model` succeeds; the two Booleans record whether each
is non-`None`. -/
structure MedGemmaInference where
  config : MedGemmaConfig
  modelLoaded : Bool
  tokenizerLoaded : Bool
deriving Repr, DecidableEq

/-- A Python-dict-shaped response body: the union of the key sets produced
by `generate_response` and the route error paths, absent keys being
`none`. -/
structure Envelope where
  success : Bool
  result : Option String := none
  error : Option String := none
  model : Option String := none
  processing_time : Option Nat := none
  tokens_generated : Option Int := none
deriving Repr, DecidableEq

/-- The `task_prefixes` lookup of `format_medical_prompt`
(`dict.get(task_type, default)`). -/
def task_prefixes (task_type : String) : String :=
  if task_type = "clinical_qa" then
    "Answer this clinical question based on medical knowledge:"
  else if task_type = "text_analysis" then
    "Analyze the following clinical text and provide insights:"
  else if task_type = "search_enhancement" then
    "Convert this query to medical terminology:"
  else if task_type = "image_analysis" then
    "Analyze this radiology finding:"
  else
    "Provide medical assistance for:"

/-- `MedGemmaInference.format_medical_prompt` (it does not consult
`self`): wraps the text in Gemma chat-turn markers around the selected
task prefix. -/
def format_medical_prompt (text : String) (task_type : String) : String :=
  "<start_of_turn>user\n" ++ task_prefixes task_type ++ "\n\n" ++ text
    ++ "<end_of_turn>\n<start_of_turn>model\n"

/-- `MedGemmaInference.generate_response`.  The `if not self.model or not
self.tokenizer: raise RuntimeError("Model not loaded")` guard sits before
the `try` block, so it raises (`Except.error`).  Inside the `try`, any
exception from the library call is caught and turned into a
`success: False` dict; a successful call strips the decoded input prefix
from the decoded output and reports the token-count difference. -/
def MedGemmaInference.generate_response (self : MedGemmaInference)
    (gen : GenOracle) (elapsed : Nat) (prompt : String)
    (opts : SamplingOptions) : Except String Envelope :=
  if !self.modelLoaded || !self.tokenizerLoaded then
    Except.error "Model not loaded"
  else
    match gen prompt opts with
    | Except.ok out =>
        Except.ok
          { success := true
            result := some ((out.fullDecoded.drop out.inputDecoded.length).trim)
            model := some self.config.model_id
            processing_time := some elapsed
            tokens_generated :=
              some ((out.outputIds.length : Int) - (out.inputIds.length : Int)) }
    | Except.error e =>
        Except.ok
          { success := false
            error := some e
            model := some self.config.model_id
            processing_time := some elapsed }

/-- The optional `options` object of an `/analyze` request body. -/
structure RequestOptions where
  maxTokens : Option Nat := none
  temperature : Option Rat := none
  top_k : Option Nat := none
  top_p : Option Rat := none
deriving Repr, DecidableEq

/-- An `/analyze` JSON body: each field is `none` when the key is absent. -/
structure RequestData where
  input : Option String := none
  type : Option String := none
  context : Option String := none
  options : Option RequestOptions := none
deriving Repr, DecidableEq

/-- What the `/analyze` route produced: HTTP status, JSON body, and ghost
instrumentation recording the body text and prompt handed to
`format_medical_prompt` and how many times the two adapter operations ran. -/
structure AnalyzeOutcome where
  status : Nat
  body : Envelope
  bodyTextUsed : Option String := none
  promptUsed : Option String := none
  formatPromptCalls : Nat := 0
  generateCalls : Nat := 0
deriving Repr, DecidableEq

/-- The `/analyze` route.  `st` is the global `medgemma_model`
(`none` when unloaded); `data` is `request.get_json()` (`none` when the
body is absent or not JSON); `not data or 'input' not in data` reduces to
`data` being `none` or lacking the `input` key, since a dict containing
`'input'` is non-empty.  A raise out of `generate_response` is caught by
the route's `except` and mapped to a 500 envelope. -/
def analyze (st : Option MedGemmaInference) (gen : GenOracle) (elapsed : Nat)
    (data : Option RequestData) : AnalyzeOutcome :=
  match st with
  | none =>
      { status := 503
        body := { success := false, error := some "MedGemma model not available" } }
  | some m =>
      match data with
      | none =>
          { status := 400
            body := { success := false, error := some "Missing required field: input" } }
      | some d =>
          match d.input with
          | none =>
              { status := 400
                body := { success := false, error := some "Missing required field: input" } }
          | some inputText =>
              let task_type := d.type.getD "general"
              let context := d.context.getD ""
              let reqOpts := d.options.getD {}
              let text := if context ≠ "" then context ++ "\n\n" ++ inputText else inputText
              let prompt := format_medical_prompt text task_type
              let sampling : SamplingOptions :=
                { max_new_tokens := reqOpts.maxTokens.getD 512
                  temperature := reqOpts.temperature.getD (0.7 : Rat)
                  top_k := reqOpts.top_k.getD 50
                  top_p := reqOpts.top_p.getD (0.95 : Rat)
                  do_sample := true }
              match m.generate_response gen elapsed prompt sampling with
              | Except.ok r =>
                  { status := 200, body := r, bodyTextUsed := some text
                    promptUsed := some prompt, formatPromptCalls := 1, generateCalls := 1 }
              | Except.error e =>
                  { status := 500
                    body := { success := false, error := some e }
                    bodyTextUsed := some text, promptUsed := some prompt
                    formatPromptCalls := 1, generateCalls := 1 }

/-- The value of a Python expression `x and b` where `x` is an object or
`None` and `b` a bool: `None` short-circuits to `None`, otherwise the
expression is the bool. -/
inductive PyBoolish where
  | pynone
  | pybool (b : Bool)
deriving Repr, DecidableEq

/-- One entry of the `/models` catalog. -/
structure ModelEntry where
  id : String
  name : String
  description : String
  loaded : PyBoolish
deriving Repr, DecidableEq

/-- The `/models` response body. -/
structure ModelsResponse where
  models : List ModelEntry
  current_model : Option String
deriving Repr, DecidableEq

/-- The `/models` route (`list_models`).  The first entry's `loaded` field
is the Python expression `medgemma_model and medgemma_model.config.model_id
== "RSM-VLM/med-gemma"`, which is `None` (not `False`) when the global is
`None`. -/
def list_models (st : Option MedGemmaInference) : ModelsResponse :=
  { models :=
      [ { id := "RSM-VLM/med-gemma"
          name := "MedGemma 7B"
          description := "Medical Gemma model fine-tuned for clinical tasks"
          loaded :=
            match st with
            | none => PyBoolish.pynone
            | some m => PyBoolish.pybool (m.config.model_id == "RSM-VLM/med-gemma") }
      , { id := "google/gemma-7b-it"
          name := "Gemma 7B Instruct"
          description := "Base Gemma model suitable for medical fine-tuning"
          loaded := PyBoolish.pybool false } ]
    current_model := st.map (fun m => m.config.model_id) }

/-- The default configuration (`RSM-VLM/med-gemma`, quantized). -/
def defaultConfig : MedGemmaConfig :=
  { model_id := "RSM-VLM/med-gemma", use_quantization := true }

/-- A concrete adapter whose model and tokenizer are loaded. -/
def readyAdapter : MedGemmaInference :=
  { config := defaultConfig, modelLoaded := true, tokenizerLoaded := true }

/-- A concrete adapter whose model and tokenizer are not loaded. -/
def unreadyAdapter : MedGemmaInference :=
  { config := defaultConfig, modelLoaded := false, tokenizerLoaded := false }

/-- The default sampling options of `generate_response`. -/
def defaultSampling : SamplingOptions :=
  { max_new_tokens := 512, temperature := (0.7 : Rat), top_k := 50
    top_p := (0.95 : Rat), do_sample := true }

/-- A concrete oracle on which the library call always raises. -/
def failingOracle : GenOracle := fun _ _ => Except.error "CUDA out of memory"

/-- A concrete oracle on which the model emits an end marker immediately:
the output token sequence equals the input token sequence. -/
def echoOracle : GenOracle := fun p _ =>
  Except.ok { inputIds := [1, 2, 3], outputIds := [1, 2, 3]
              fullDecoded := p, inputDecoded := p }

/-- Helper: on an unready adapter (model or tokenizer not loaded),
`generate_response` raises `RuntimeError("Model not loaded")`. -/
theorem generate_response_unready (m : MedGemmaInference)
    (h : m.modelLoaded = false ∨ m.tokenizerLoaded = false)
    (gen : GenOracle) (elapsed : Nat) (prompt : String) (opts : SamplingOptions) :
    m.generate_response gen elapsed prompt opts = Except.error "Model not loaded" := by
  unfold MedGemmaInference.generate_response
  rcases h with h | h <;> simp [h]

/-- Claim C1, counterexample: at a concrete unready adapter,
`generate_response` does not return a `success: False` result — it raises
`RuntimeError("Model not loaded")` (modelled as `Except.error`), so the
call yields no returned value at all. -/
theorem c1_counterexample :
    unreadyAdapter.generate_response failingOracle 0 "p" defaultSampling
        = Except.error "Model not loaded"
      ∧ (unreadyAdapter.generate_response failingOracle 0 "p" defaultSampling).toOption
        = none := by
  constructor <;> rfl

/-- Claim C1 (amended): for every call to `generate_response` when the
adapter is not Ready (model or tokenizer not loaded), the call raises a
`RuntimeError` with message "Model not loaded" instead of returning a
result dictionary. -/
theorem c1_unready_raises (m : MedGemmaInference)
    (h : m.modelLoaded = false ∨ m.tokenizerLoaded = false)
    (gen : GenOracle) (elapsed : Nat) (prompt : String) (opts : SamplingOptions) :
    m.generate_response gen elapsed prompt opts = Except.error "Model not loaded" :=
  generate_response_unready m h gen elapsed prompt opts

/-- Witness for C1 (amended) at the concrete unready adapter. -/
theorem c1_unready_raises_witness :
    unreadyAdapter.generate_response echoOracle 0 "q" defaultSampling
      = Except.error "Model not loaded" :=
  c1_unready_raises unreadyAdapter (Or.inl rfl) echoOracle 0 "q" defaultSampling

/-- Claim C4: while the global model instance is `None`, `/analyze`
returns HTTP 503 with a `success: False` envelope, for every request body
(parsed or not), and neither `format_medical_prompt` nor
`generate_response` runs: no prompt is constructed. -/
theorem c4_unready_503 (gen : GenOracle) (elapsed : Nat)
    (data : Option RequestData) :
    (analyze none gen elapsed data).status = 503
      ∧ (analyze none gen elapsed data).body
          = { success := false, error := some "MedGemma model not available" }
      ∧ (analyze none gen elapsed data).formatPromptCalls = 0
      ∧ (analyze none gen elapsed data).generateCalls = 0
      ∧ (analyze none gen elapsed data).promptUsed = none :=
  ⟨rfl, rfl, rfl, rfl, rfl⟩

/-- Claim C6: every task type outside the four known ones (including
"general") selects the default prefix, and each known task type selects
its fixed table entry. -/
theorem c6_default_fallback (t : String)
    (h : t ≠ "clinical_qa" ∧ t ≠ "text_analysis" ∧ t ≠ "search_enhancement"
          ∧ t ≠ "image_analysis") :
    task_prefixes t = "Provide medical assistance for:"
      ∧ task_prefixes "clinical_qa"
          = "Answer this clinical question based on medical knowledge:"
      ∧ task_prefixes "text_analysis"
          = "Analyze the following clinical text and provide insights:"
      ∧ task_prefixes "search_enhancement"
          = "Convert this query to medical terminology:"
      ∧ task_prefixes "image_analysis" = "Analyze this radiology finding:" := by
  obtain ⟨h1, h2, h3, h4⟩ := h
  refine ⟨?_, rfl, rfl, rfl, rfl⟩
  unfold task_prefixes
  simp [h1, h2, h3, h4]

/-- Witness for C6 at the task type "general". -/
theorem c6_default_fallback_witness :
    task_prefixes "general" = "Provide medical assistance for:" :=
  (c6_default_fallback "general" (by decide)).1

/-- Claim C7: the prompt is exactly user-turn marker, prefix, blank line,
body text, end-of-turn marker, model-turn marker with nothing after it;
and the clinical_qa pneumonia scenario (empty context) yields the verbatim
string through the `/analyze` pipeline. -/
theorem c7_prompt_format (text task : String) :
    format_medical_prompt text task
        = "<start_of_turn>user\n" ++ task_prefixes task ++ "\n\n" ++ text
            ++ "<end_of_turn>\n<start_of_turn>model\n"
      ∧ (analyze (some readyAdapter) echoOracle 0
            (some { input := some "What are the symptoms of pneumonia?"
                    type := some "clinical_qa", context := some "" })).promptUsed
          = some ("<start_of_turn>user\nAnswer this clinical question based on medical knowledge:\n\nWhat are the symptoms of pneumonia?<end_of_turn>\n<start_of_turn>model\n") :=
  ⟨rfl, rfl⟩

/-- Helper: on a ready adapter, a raise from the library call is caught
and mapped to the `success: False` dictionary. -/
theorem generate_response_ready_error (m : MedGemmaInference)
    (hm : m.modelLoaded = true) (ht : m.tokenizerLoaded = true)
    (gen : GenOracle) (elapsed : Nat) (prompt : String) (opts : SamplingOptions)
    (msg : String) (hgen : gen prompt opts = Except.error msg) :
    m.generate_response gen elapsed prompt opts
      = Except.ok { success := false, error := some msg,
                    model := some m.config.model_id, processing_time := some elapsed } := by
  unfold MedGemmaInference.generate_response
  simp [hm, ht, hgen]

/-- Helper: on a ready adapter, a successful library call is mapped to the
`success: True` dictionary with prompt-stripped text and token count. -/
theorem generate_response_ready_ok (m : MedGemmaInference)
    (hm : m.modelLoaded = true) (ht : m.tokenizerLoaded = true)
    (gen : GenOracle) (elapsed : Nat) (prompt : String) (opts : SamplingOptions)
    (out : GenOutput) (hgen : gen prompt opts = Except.ok out) :
    m.generate_response gen elapsed prompt opts
      = Except.ok { success := true
                    result := some ((out.fullDecoded.drop out.inputDecoded.length).trim)
                    model := some m.config.model_id
                    processing_time := some elapsed
                    tokens_generated :=
                      some ((out.outputIds.length : Int) - (out.inputIds.length : Int)) } := by
  unfold MedGemmaInference.generate_response
  simp [hm, ht, hgen]

/-- Helper: when the body has an `input` key, `/analyze` records as the
body text the context-prepended input (blank-line separated) when
`context` is a non-empty string, else the input itself. -/
theorem analyze_bodyTextUsed (m : MedGemmaInference) (gen : GenOracle)
    (elapsed : Nat) (d : RequestData) (i : String) (hi : d.input = some i) :
    (analyze (some m) gen elapsed (some d)).bodyTextUsed
      = some (if d.context.getD "" ≠ "" then d.context.getD "" ++ "\n\n" ++ i else i) := by
  obtain ⟨inp, ty, ctx, op⟩ := d
  cases hi
  unfold analyze
  dsimp only
  split <;> rfl

/-- Helper: when the body has an `input` key, `/analyze` invokes
`format_medical_prompt` and `generate_response` exactly once each and does
not answer 400. -/
theorem analyze_calls_input_present (m : MedGemmaInference) (gen : GenOracle)
    (elapsed : Nat) (d : RequestData) (i : String) (hi : d.input = some i) :
    (analyze (some m) gen elapsed (some d)).formatPromptCalls = 1
      ∧ (analyze (some m) gen elapsed (some d)).generateCalls = 1
      ∧ (analyze (some m) gen elapsed (some d)).status ≠ 400 := by
  obtain ⟨inp, ty, ctx, op⟩ := d
  cases hi
  unfold analyze
  dsimp only
  refine ⟨?_, ?_, ?_⟩ <;> split <;> simp

/-- Claim C2: with the adapter Ready, if the underlying generation call
raises with message `msg`, `generate_response` catches it and returns
`success: False`, `error: msg`, the model id and the elapsed time, and the
`/analyze` route returns that envelope with HTTP 200; the exception never
escapes the adapter. -/
theorem c2_generation_exception_caught (m : MedGemmaInference)
    (hm : m.modelLoaded = true) (ht : m.tokenizerLoaded = true)
    (gen : GenOracle) (msg : String) (elapsed : Nat)
    (hgen : ∀ p o, gen p o = Except.error msg)
    (d : RequestData) (s : String) (hi : d.input = some s) :
    (∀ prompt opts, m.generate_response gen elapsed prompt opts
        = Except.ok { success := false, error := some msg,
                      model := some m.config.model_id, processing_time := some elapsed })
      ∧ (analyze (some m) gen elapsed (some d)).status = 200
      ∧ (analyze (some m) gen elapsed (some d)).body
          = { success := false, error := some msg,
              model := some m.config.model_id, processing_time := some elapsed } := by
  have hresp : ∀ prompt opts, m.generate_response gen elapsed prompt opts
      = Except.ok { success := false, error := some msg,
                    model := some m.config.model_id, processing_time := some elapsed } :=
    fun p o => generate_response_ready_error m hm ht gen elapsed p o msg (hgen p o)
  refine ⟨hresp, ?_, ?_⟩ <;>
  · obtain ⟨inp, ty, ctx, op⟩ := d
    cases hi
    unfold analyze
    dsimp only
    rw [hresp]

/-- Witness for C2 at the ready adapter and the always-raising oracle. -/
theorem c2_witness :
    (analyze (some readyAdapter) failingOracle 7 (some { input := some "hi" })).status = 200
      ∧ (analyze (some readyAdapter) failingOracle 7 (some { input := some "hi" })).body
          = { success := false, error := some "CUDA out of memory",
              model := some "RSM-VLM/med-gemma", processing_time := some 7 } := by
  have h := c2_generation_exception_caught readyAdapter rfl rfl failingOracle
    "CUDA out of memory" 7 (fun _ _ => rfl) { input := some "hi" } "hi" rfl
  exact ⟨h.2.1, h.2.2⟩

/-- Claim C3: with the adapter Ready, a body that is absent or lacks the
`input` key is answered 400 with the `Missing required field: input`
envelope and causes zero adapter invocations. -/
theorem c3_missing_input_400 (m : MedGemmaInference)
    (hm : m.modelLoaded = true) (ht : m.tokenizerLoaded = true)
    (gen : GenOracle) (elapsed : Nat) (data : Option RequestData)
    (hmiss : data = none ∨ ∃ d, data = some d ∧ d.input = none) :
    (analyze (some m) gen elapsed data).status = 400
      ∧ (analyze (some m) gen elapsed data).body
          = { success := false, error := some "Missing required field: input" }
      ∧ (analyze (some m) gen elapsed data).formatPromptCalls = 0
      ∧ (analyze (some m) gen elapsed data).generateCalls = 0 := by
  rcases hmiss with rfl | ⟨d, rfl, hi⟩
  · exact ⟨rfl, rfl, rfl, rfl⟩
  · obtain ⟨inp, ty, ctx, op⟩ := d
    cases hi
    exact ⟨rfl, rfl, rfl, rfl⟩

/-- Witness for C3 at an absent body. -/
theorem c3_witness :
    (analyze (some readyAdapter) echoOracle 0 none).status = 400
      ∧ (analyze (some readyAdapter) echoOracle 0 none).generateCalls = 0 := by
  have h := c3_missing_input_400 readyAdapter rfl rfl echoOracle 0 none (Or.inl rfl)
  exact ⟨h.1, h.2.2.2⟩

/-- Claim C5: with `input` present, a present non-empty `context` makes
the body text `context ++ "\n\n" ++ input`; an absent or empty `context`
leaves the body text equal to `input`. -/
theorem c5_context_handling (m : MedGemmaInference) (gen : GenOracle)
    (elapsed : Nat) (d : RequestData) (i : String) (hi : d.input = some i) :
    (∀ c, d.context = some c → c ≠ "" →
        (analyze (some m) gen elapsed (some d)).bodyTextUsed = some (c ++ "\n\n" ++ i))
      ∧ ((d.context = none ∨ d.context = some "") →
        (analyze (some m) gen elapsed (some d)).bodyTextUsed = some i) := by
  constructor
  · intro c hc hne
    rw [analyze_bodyTextUsed m gen elapsed d i hi, hc]
    simp [hne]
  · intro hc
    rw [analyze_bodyTextUsed m gen elapsed d i hi]
    rcases hc with hc | hc <;> rw [hc] <;> simp

/-- Witness for C5 at a concrete request with non-empty context. -/
theorem c5_witness :
    (analyze (some readyAdapter) echoOracle 0
        (some { input := some "x", context := some "ctx" })).bodyTextUsed
      = some ("ctx" ++ "\n\n" ++ "x") := by
  have h := c5_context_handling readyAdapter echoOracle 0
    { input := some "x", context := some "ctx" } "x" rfl
  exact h.1 "ctx" rfl (by decide)

/-- Claim C8: a body whose `input` key holds the empty string is not
rejected: `/analyze` does not answer 400 and still performs one
`format_medical_prompt` call and one `generate_response` call. -/
theorem c8_empty_input_proceeds (m : MedGemmaInference) (gen : GenOracle)
    (elapsed : Nat) (d : RequestData) (hi : d.input = some "") :
    (analyze (some m) gen elapsed (some d)).status ≠ 400
      ∧ (analyze (some m) gen elapsed (some d)).formatPromptCalls = 1
      ∧ (analyze (some m) gen elapsed (some d)).generateCalls = 1 := by
  obtain ⟨h1, h2, h3⟩ := analyze_calls_input_present m gen elapsed d "" hi
  exact ⟨h3, h1, h2⟩

/-- Witness for C8 at a concrete empty-string input. -/
theorem c8_witness :
    (analyze (some readyAdapter) echoOracle 0 (some { input := some "" })).status ≠ 400
      ∧ (analyze (some readyAdapter) echoOracle 0 (some { input := some "" })).generateCalls = 1 := by
  have h := c8_empty_input_proceeds readyAdapter echoOracle 0 { input := some "" } rfl
  exact ⟨h.1, h.2.2⟩

/-- Claim C9: on a successful generation, `tokens_generated` equals the
output sequence length minus the input sequence length, and the value 0 is
attained when the output sequence equals the input sequence. -/
theorem c9_tokens_generated (m : MedGemmaInference)
    (hm : m.modelLoaded = true) (ht : m.tokenizerLoaded = true)
    (gen : GenOracle) (elapsed : Nat) (prompt : String) (opts : SamplingOptions)
    (out : GenOutput) (hgen : gen prompt opts = Except.ok out) :
    (∃ r, m.generate_response gen elapsed prompt opts = Except.ok r
        ∧ r.success = true
        ∧ r.tokens_generated
            = some ((out.outputIds.length : Int) - (out.inputIds.length : Int)))
      ∧ (∃ r0, readyAdapter.generate_response echoOracle 0 "p" defaultSampling
            = Except.ok r0
        ∧ r0.success = true ∧ r0.tokens_generated = some 0) := by
  refine ⟨⟨_, generate_response_ready_ok m hm ht gen elapsed prompt opts out hgen,
    rfl, rfl⟩, ?_⟩
  exact ⟨_, rfl, rfl, rfl⟩

/-- Witness for C9 at the ready adapter and the echoing oracle. -/
theorem c9_witness :
    ∃ r, readyAdapter.generate_response echoOracle 5 "pp" defaultSampling = Except.ok r
      ∧ r.success = true ∧ r.tokens_generated = some 0 := by
  have h := c9_tokens_generated readyAdapter rfl rfl echoOracle 5 "pp" defaultSampling
    { inputIds := [1, 2, 3], outputIds := [1, 2, 3]
      fullDecoded := "pp", inputDecoded := "pp" } rfl
  exact h.1

/-- Claim C10: with no model loaded, the first `/models` catalog entry's
`loaded` field is Python `None` (JSON null), not the boolean `False`, and
`current_model` is null. -/
theorem c10_models_loaded_null :
    ((list_models none).models.head?.map ModelEntry.loaded)
        = some PyBoolish.pynone
      ∧ PyBoolish.pynone ≠ PyBoolish.pybool false
      ∧ (list_models none).current_model = none := by
  refine ⟨rfl, ?_, rfl⟩
  decide

end MedGemmaLocal
